import Mathlib

/-
Shallow embedding of the askai command-line tool.

Source layout:
  askai/providers/claude.py : ClaudeProvider (model tables, alias resolution,
                              command construction)
  askai/providers/base.py   : Provider.validate_model
  askai/config.py           : ConfigManager (defaults, deep merge, dotted get)
  askai/cli.py              : validate_args
  askai/main.py             : main (model precedence, dispatch)

Python dicts are embedded as association lists of (key, value) pairs in
insertion order; JSON values as the inductive type JVal; fallible Python code
(raise ValueError) as Except String.
-/

set_option autoImplicit false

namespace Askai

/-- JSON-like values as produced by json.load and used in ConfigManager. -/
inductive JVal where
  | str (s : String)
  | num (n : Int)
  | boolv (b : Bool)
  | nullv
  | obj (fields : List (String × JVal))

/-- Association-list lookup, the embedding of Python dict indexing / the
`in` test: returns the value of the first pair whose key matches. -/
def alookup {α : Type} : List (String × α) → String → Option α
  | [], _ => none
  | (k', v) :: rest, k => if k = k' then some v else alookup rest k

/-- Embedding of Python str.lower as used in _resolve_model (claude.py line
89): per-character lowering. Char.toLower agrees with str.lower on the ASCII
model names involved. -/
def pyLower (s : String) : String := String.mk (s.data.map Char.toLower)

namespace ClaudeProvider

/-- ClaudeProvider.MODELS (claude.py lines 22-26): short name to
fully-qualified model identifier. -/
def MODELS : List (String × String) :=
  [("haiku", "claude-haiku-4-5-20251001"),
   ("sonnet", "claude-sonnet-4-5-20250929"),
   ("opus", "claude-opus-4-1-20250805")]

/-- ClaudeProvider.MODEL_ALIASES (claude.py lines 29-42): alias to canonical
short name. -/
def MODEL_ALIASES : List (String × String) :=
  [("haiku", "haiku"),
   ("sonnet", "sonnet"),
   ("opus", "opus"),
   ("haiku-4", "haiku"),
   ("haiku-4-5", "haiku"),
   ("4-5-haiku", "haiku"),
   ("sonnet-4", "sonnet"),
   ("sonnet-4-5", "sonnet"),
   ("4-5-sonnet", "sonnet"),
   ("opus-4", "opus"),
   ("opus-4-1", "opus"),
   ("4-1-opus", "opus")]

/-- ClaudeProvider.get_default_model (claude.py lines 49-55). -/
def get_default_model : String := "haiku"

/-- ClaudeProvider.get_available_models (claude.py lines 57-63):
list(MODELS.keys()). -/
def get_available_models : List String := MODELS.map Prod.fst

/-- Body of ClaudeProvider._resolve_model after the default substitution and
lower-casing (claude.py lines 91-101): one alias hop when the name is in
MODEL_ALIASES, then the canonical table; unknown names raise ValueError with
a message listing the short names. -/
def resolveLowered (m : String) : Except String String :=
  match alookup MODELS ((alookup MODEL_ALIASES m).getD m) with
  | some id => Except.ok id
  | none =>
      Except.error ("Unknown model '" ++ (alookup MODEL_ALIASES m).getD m
        ++ "'. Available: " ++ String.intercalate ", " get_available_models)

/-- ClaudeProvider._resolve_model (claude.py lines 73-101): a missing model
falls back to the provider default, the name is lower-cased, then resolved. -/
def resolveModel (model : Option String) : Except String String :=
  resolveLowered (pyLower (model.getD get_default_model))

/-- ClaudeProvider.build_command (claude.py lines 103-140): resolve the model,
prepend the fixed conciseness instruction to the prompt, return the argv. -/
def build_command (prompt : String) (model : Option String) :
    Except String (List String) :=
  match resolveModel model with
  | Except.ok model_id =>
      Except.ok ["claude", "--model", model_id,
        "Answer concisely in under 100 words: " ++ prompt]
  | Except.error e => Except.error e

/-- Provider.validate_model (base.py lines 88-97) as inherited by
ClaudeProvider: membership of the model string in get_available_models(). -/
def validate_model (model : String) : Bool :=
  get_available_models.contains model

end ClaudeProvider

namespace ConfigManager

/-- ConfigManager.DEFAULT_CONFIG (config.py lines 31-38). -/
def DEFAULT_CONFIG : List (String × JVal) :=
  [("default_provider", JVal.str "claude"),
   ("default_models", JVal.obj
      [("claude", JVal.str "haiku"),
       ("gemini", JVal.str "gemini-flash")]),
   ("max_response_words", JVal.num 100)]

/-- Python dict assignment d[k] = v: replace the value at the first
occurrence of the key in place (keeping its position), append the pair when
the key is absent. -/
def dictInsert : List (String × JVal) → String → JVal → List (String × JVal)
  | [], k, v => [(k, v)]
  | (k', v') :: rest, k, v =>
      if k' = k then (k, v) :: rest else (k', v') :: dictInsert rest k v

/-- Python dict union as written in _merge_with_defaults (config.py line 96),
the expression with the two double-star splats: entries of the second dict
assigned over the first, one by one. -/
def dictUnion (d u : List (String × JVal)) : List (String × JVal) :=
  u.foldl (fun acc kv => dictInsert acc kv.1 kv.2) d

/-- One iteration of the loop in ConfigManager._merge_with_defaults
(config.py lines 94-98): when the key already maps to a dict in the
accumulator and the loaded value is a dict, merge the two key-by-key;
otherwise assign the loaded value. -/
def mergeStep (merged : List (String × JVal)) (kv : String × JVal) :
    List (String × JVal) :=
  match alookup merged kv.1, kv.2 with
  | some (JVal.obj dflt), JVal.obj userd =>
      dictInsert merged kv.1 (JVal.obj (dictUnion dflt userd))
  | _, _ => dictInsert merged kv.1 kv.2

/-- ConfigManager._merge_with_defaults (config.py lines 82-100): start from a
copy of DEFAULT_CONFIG and fold the loaded entries over it. -/
def mergeWithDefaults (loaded : List (String × JVal)) : List (String × JVal) :=
  loaded.foldl mergeStep DEFAULT_CONFIG

/-- Recursive walk of ConfigManager.get (config.py lines 122-142): descend
through dict values segment by segment, yielding none (the Python None
default used by get_default_model) at the first missing segment or
non-dict intermediate. -/
def configGetAux : JVal → List String → Option JVal
  | v, [] => some v
  | JVal.obj d, k :: rest =>
      match alookup d k with
      | some v' => configGetAux v' rest
      | none => none
  | _, _ :: _ => none

/-- ConfigManager.get on a dotted path, applied to the top-level config
mapping. -/
def config_get (cfg : List (String × JVal)) (path : List String) :
    Option JVal :=
  configGetAux (JVal.obj cfg) path

/-- ConfigManager.get_default_model (config.py lines 176-185):
get("default_models.PROVIDER"), None when not configured. -/
def get_default_model (cfg : List (String × JVal)) (provider : String) :
    Option JVal :=
  config_get cfg ["default_models", provider]

end ConfigManager

/-- Python truthiness on JSON values, as used by the `or` chains in main.py:
None, empty string, zero, False and empty dict are falsy. -/
def pyTruthy : JVal → Bool
  | JVal.str s => s ≠ ""
  | JVal.num n => n ≠ 0
  | JVal.boolv b => b
  | JVal.nullv => false
  | JVal.obj l => !l.isEmpty

/-- Python `a or b`: the left operand when truthy, otherwise the right. -/
def pyOr (a b : JVal) : JVal := if pyTruthy a then a else b

/-- Embedding of a Python Optional value into JVal (None becomes null). -/
def optToJ : Option JVal → JVal
  | some v => v
  | none => JVal.nullv

namespace Main

/-- Model precedence in main (main.py line 109):
args.model or config.get_default_model(provider_name) or
provider.get_default_model(), with Python `or` truthiness. -/
def effectiveModel (argsModel : JVal) (cfg : List (String × JVal))
    (provider : String) : JVal :=
  pyOr argsModel
    (pyOr (optToJ (ConfigManager.get_default_model cfg provider))
      (JVal.str ClaudeProvider.get_default_model))

/-- Command construction path of main for the single registered provider
"claude" (main.py lines 109-113): resolve the effective model, then call
ClaudeProvider.build_command. A non-string truthy model coming from the
config would make model.lower() raise in Python; that is the error branch. -/
def mainBuild (cfg : List (String × JVal)) (argsModel : JVal)
    (prompt : String) : Except String (List String) :=
  match effectiveModel argsModel cfg "claude" with
  | JVal.str s => ClaudeProvider.build_command prompt (some s)
  | _ => Except.error "model is not a string"

end Main

/-- Parsed argument namespace produced by cli.create_parser (cli.py lines
21-129): the optional positional prompt, the optional -p / -m strings, the
boolean flags, and the optional --list-models provider string. -/
structure Args where
  prompt : Option String
  provider : Option String
  model : Option String
  list_providers : Bool
  list_models : Option String
  config_path : Bool
  config_show : Bool
  config_reset : Bool
  verbose : Bool
  dry_run : Bool

/-- Python truthiness of an Optional[str]: None and the empty string are
falsy. -/
def truthyStrOpt : Option String → Bool
  | some s => s ≠ ""
  | none => false

/-- cli.validate_args (cli.py lines 163-181): a truthy --list-models value
that strips to nothing is rejected first; then --dry-run combined with any
of the three config flags is rejected. -/
def validate_args (a : Args) : Except String Unit :=
  if (match a.list_models with
      | some s => s ≠ "" && s.trim = ""
      | none => false) then
    Except.error "--list-models requires a provider name"
  else if a.dry_run && (a.config_path || a.config_show || a.config_reset) then
    Except.error "--dry-run cannot be used with configuration flags"
  else Except.ok ()

/-- Truthiness test of the any([...]) in cli.parse_args (cli.py lines
148-156) over the five informational and configuration flags. -/
def infoFlagsTruthy (a : Args) : Bool :=
  a.list_providers || truthyStrOpt a.list_models || a.config_path
    || a.config_show || a.config_reset

/-- Terminal action chosen by main for a given argument namespace. -/
inductive Action where
  | listProviders
  | listModels (provider : String)
  | configPath
  | configShow
  | configReset
  | dryRun (command : List String)
  | execute (command : List String)

namespace Main

/-- Dispatch logic of cli.parse_args plus main (cli.py lines 147-158,
main.py lines 63-127): the missing-prompt usage error, then validate_args,
then the first matching informational or configuration flag, otherwise the
provider invocation path ending in a dry-run display or an execution. -/
def mainDispatch (a : Args) (cfg : List (String × JVal)) :
    Except String Action :=
  if !infoFlagsTruthy a && !truthyStrOpt a.prompt then
    Except.error "the following arguments are required: prompt"
  else
    match validate_args a with
    | Except.error e => Except.error e
    | Except.ok _ =>
      if a.list_providers then Except.ok Action.listProviders
      else if truthyStrOpt a.list_models then
        Except.ok (Action.listModels ((a.list_models).getD ""))
      else if a.config_path then Except.ok Action.configPath
      else if a.config_show then Except.ok Action.configShow
      else if a.config_reset then Except.ok Action.configReset
      else
        match mainBuild cfg (optToJ ((a.model).map JVal.str))
            ((a.prompt).getD "") with
        | Except.error e => Except.error e
        | Except.ok cmd =>
            if a.dry_run then Except.ok (Action.dryRun cmd)
            else Except.ok (Action.execute cmd)

end Main

end Askai

/-- Helper: every error produced by resolveLowered has the fixed shape with
the enumeration of get_available_models. -/
theorem resolveLowered_error_shape (m e : String)
    (h : Askai.ClaudeProvider.resolveLowered m = Except.error e) :
    ∃ x, e = "Unknown model '" ++ x ++ "'. Available: " ++
      String.intercalate ", " Askai.ClaudeProvider.get_available_models := by
  unfold Askai.ClaudeProvider.resolveLowered at h
  split at h
  · exact absurd h (by simp)
  · injection h with h1
    exact ⟨_, h1.symm⟩

/-- C1: for the prompt "what is python?" with no explicit model (resolving to
the default model "haiku"), build_command returns exactly the four-element
argument list; the same list is produced by the main path on the
empty-config-merged-with-defaults configuration. -/
theorem claim_C1 :
    Askai.ClaudeProvider.build_command "what is python?" none =
      Except.ok ["claude", "--model", "claude-haiku-4-5-20251001",
        "Answer concisely in under 100 words: what is python?"] ∧
    Askai.Main.mainBuild (Askai.ConfigManager.mergeWithDefaults [])
        Askai.JVal.nullv "what is python?" =
      Except.ok ["claude", "--model", "claude-haiku-4-5-20251001",
        "Answer concisely in under 100 words: what is python?"] :=
  ⟨rfl, rfl⟩

/-- C3: for every supported short model name, alias resolution is idempotent:
the alias table maps the name to a canonical short name, resolution succeeds,
and resolving the canonical short name again succeeds with the same canonical
identifier. -/
theorem claim_C3 (s : String)
    (hs : s ∈ Askai.ClaudeProvider.get_available_models) :
    ∃ canon id, Askai.alookup Askai.ClaudeProvider.MODEL_ALIASES s = some canon ∧
      Askai.ClaudeProvider.resolveModel (some s) = Except.ok id ∧
      Askai.ClaudeProvider.resolveModel (some canon) = Except.ok id := by
  have h3 : s = "haiku" ∨ s = "sonnet" ∨ s = "opus" := by
    simpa [Askai.ClaudeProvider.get_available_models,
      Askai.ClaudeProvider.MODELS] using hs
  rcases h3 with rfl | rfl | rfl
  · exact ⟨"haiku", "claude-haiku-4-5-20251001", rfl, rfl, rfl⟩
  · exact ⟨"sonnet", "claude-sonnet-4-5-20250929", rfl, rfl, rfl⟩
  · exact ⟨"opus", "claude-opus-4-1-20250805", rfl, rfl, rfl⟩

/-- Witness for C3 at the short name "haiku". -/
theorem witness_C3 :
    "haiku" ∈ Askai.ClaudeProvider.get_available_models ∧
    ∃ canon id,
      Askai.alookup Askai.ClaudeProvider.MODEL_ALIASES "haiku" = some canon ∧
      Askai.ClaudeProvider.resolveModel (some "haiku") = Except.ok id ∧
      Askai.ClaudeProvider.resolveModel (some canon) = Except.ok id :=
  ⟨by decide, claim_C3 "haiku" (by decide)⟩

/-- C6: model resolution is case-insensitive: any two strings with the same
lower-casing resolve identically (same canonical identifier or same
failure). -/
theorem claim_C6 (s t : String) (h : Askai.pyLower s = Askai.pyLower t) :
    Askai.ClaudeProvider.resolveModel (some s) =
      Askai.ClaudeProvider.resolveModel (some t) := by
  show Askai.ClaudeProvider.resolveLowered (Askai.pyLower s) =
    Askai.ClaudeProvider.resolveLowered (Askai.pyLower t)
  rw [h]

/-- Witness for C6 at the case variants "HAIKU" and "haiku". -/
theorem witness_C6 :
    Askai.pyLower "HAIKU" = Askai.pyLower "haiku" ∧
    Askai.ClaudeProvider.resolveModel (some "HAIKU") =
      Askai.ClaudeProvider.resolveModel (some "haiku") :=
  ⟨rfl, claim_C6 "HAIKU" "haiku" rfl⟩

/-- C7: every resolution failure carries a message of the fixed shape whose
enumeration is exactly the canonical short names "haiku, sonnet, opus" (the
keys of MODELS), never the fully-qualified identifiers. -/
theorem claim_C7 (m e : String)
    (h : Askai.ClaudeProvider.resolveModel (some m) = Except.error e) :
    (∃ x, e = "Unknown model '" ++ x ++ "'. Available: " ++
      String.intercalate ", " Askai.ClaudeProvider.get_available_models) ∧
    String.intercalate ", " Askai.ClaudeProvider.get_available_models =
      "haiku, sonnet, opus" :=
  ⟨resolveLowered_error_shape _ _ h, rfl⟩

/-- Witness for C7 at the unknown model "gpt-4". -/
theorem witness_C7 :
    (∃ x, "Unknown model 'gpt-4'. Available: haiku, sonnet, opus" =
      "Unknown model '" ++ x ++ "'. Available: " ++
        String.intercalate ", " Askai.ClaudeProvider.get_available_models) ∧
    String.intercalate ", " Askai.ClaudeProvider.get_available_models =
      "haiku, sonnet, opus" :=
  claim_C7 "gpt-4" _ rfl

/-- C8: validate_model accepts exactly the three lowercase short names, while
build_command additionally accepts case variants and pure aliases, so the two
disagree on "HAIKU" and on "sonnet-4-5". -/
theorem claim_C8 :
    (∀ m : String, Askai.ClaudeProvider.validate_model m = true ↔
      (m = "haiku" ∨ m = "sonnet" ∨ m = "opus")) ∧
    (∃ cmd, Askai.ClaudeProvider.build_command "q" (some "HAIKU") =
      Except.ok cmd) ∧
    Askai.ClaudeProvider.validate_model "HAIKU" = false ∧
    (∃ cmd, Askai.ClaudeProvider.build_command "q" (some "sonnet-4-5") =
      Except.ok cmd) ∧
    Askai.ClaudeProvider.validate_model "sonnet-4-5" = false := by
  refine ⟨?_, ⟨_, rfl⟩, by decide, ⟨_, rfl⟩, by decide⟩
  intro m
  simp [Askai.ClaudeProvider.validate_model,
    Askai.ClaudeProvider.get_available_models, Askai.ClaudeProvider.MODELS,
    List.contains, List.elem_iff]

/-- C10: for every prompt, build_command with the model omitted succeeds and
returns exactly the same argument list as build_command with model
"haiku". -/
theorem claim_C10 (prompt : String) :
    ∃ cmd, Askai.ClaudeProvider.build_command prompt none = Except.ok cmd ∧
      Askai.ClaudeProvider.build_command prompt (some "haiku") =
        Except.ok cmd :=
  ⟨["claude", "--model", "claude-haiku-4-5-20251001",
    "Answer concisely in under 100 words: " ++ prompt], rfl, rfl⟩

/-- Helper: with --dry-run set and at least one configuration flag set,
validate_args always fails. -/
theorem validate_args_dryrun_config (a : Askai.Args) (hd : a.dry_run = true)
    (hc : a.config_path = true ∨ a.config_show = true ∨ a.config_reset = true) :
    ∃ e, Askai.validate_args a = Except.error e := by
  unfold Askai.validate_args
  split
  · exact ⟨_, rfl⟩
  · have hcond : (a.dry_run &&
        (a.config_path || a.config_show || a.config_reset)) = true := by
      rcases hc with h | h | h <;> simp [hd, h]
    rw [if_pos hcond]
    exact ⟨_, rfl⟩

/-- C2 counterexample: --dry-run combined with the informational flag
--list-providers passes validation, and main performs the listing action
instead of rejecting the combination. -/
theorem cex_C2 :
    Askai.validate_args
      (Askai.Args.mk none none none true none false false false false true) =
      Except.ok () ∧
    Askai.Main.mainDispatch
      (Askai.Args.mk none none none true none false false false false true) [] =
      Except.ok Askai.Action.listProviders :=
  ⟨rfl, rfl⟩

/-- C2 amended: --dry-run combined with any of the three configuration flags
(--config-path, --config-show, --config-reset) is rejected by argument
validation before any action is dispatched; the informational flags
--list-providers and --list-models are not covered by this check. -/
theorem claim_C2 (a : Askai.Args) (cfg : List (String × Askai.JVal))
    (hd : a.dry_run = true)
    (hc : a.config_path = true ∨ a.config_show = true ∨ a.config_reset = true) :
    ∃ e, Askai.Main.mainDispatch a cfg = Except.error e := by
  have hinfo : Askai.infoFlagsTruthy a = true := by
    rcases hc with h | h | h <;> simp [Askai.infoFlagsTruthy, h]
  obtain ⟨e, he⟩ := validate_args_dryrun_config a hd hc
  unfold Askai.Main.mainDispatch
  rw [hinfo, he]
  simp

/-- Witness for C2 amended at --dry-run plus --config-show. -/
theorem witness_C2 :
    ∃ e, Askai.Main.mainDispatch
      (Askai.Args.mk (some "hi") none none false none false true false false
        true) [] = Except.error e :=
  claim_C2 _ [] rfl (Or.inr (Or.inl rfl))

/-- C4 counterexample: with the --model flag supplied as the empty string and
a stored config model "sonnet", the effective model is the stored "sonnet",
not the supplied flag value, because the Python or-chain skips falsy
values. -/
theorem cex_C4 :
    Askai.Main.effectiveModel (Askai.JVal.str "")
      [("default_models",
        Askai.JVal.obj [("claude", Askai.JVal.str "sonnet")])] "claude" =
      Askai.JVal.str "sonnet" ∧
    Askai.JVal.str "sonnet" ≠ Askai.JVal.str "" := by
  refine ⟨rfl, fun h => ?_⟩
  injection h with h1
  exact absurd h1 (by decide)

/-- C4 amended: the effective model follows the fixed precedence with Python
truthiness: a non-empty explicit --model flag wins; otherwise a truthy stored
provider-specific config model wins; otherwise the provider's built-in
default "haiku" is used (an empty-string flag or a falsy stored value is
skipped). -/
theorem claim_C4 (argsModel : Askai.JVal) (cfg : List (String × Askai.JVal)) :
    (∀ s, argsModel = Askai.JVal.str s → s ≠ "" →
      Askai.Main.effectiveModel argsModel cfg "claude" = Askai.JVal.str s) ∧
    ((argsModel = Askai.JVal.nullv ∨ argsModel = Askai.JVal.str "") →
      ∀ v, Askai.ConfigManager.get_default_model cfg "claude" = some v →
        Askai.pyTruthy v = true →
        Askai.Main.effectiveModel argsModel cfg "claude" = v) ∧
    ((argsModel = Askai.JVal.nullv ∨ argsModel = Askai.JVal.str "") →
      Askai.pyTruthy
          (Askai.optToJ (Askai.ConfigManager.get_default_model cfg "claude")) =
        false →
      Askai.Main.effectiveModel argsModel cfg "claude" =
        Askai.JVal.str "haiku") := by
  refine ⟨?_, ?_, ?_⟩
  · intro s h hs
    subst h
    unfold Askai.Main.effectiveModel Askai.pyOr
    simp [Askai.pyTruthy, hs]
  · intro h v hv htruthy
    rcases h with rfl | rfl <;>
    · unfold Askai.Main.effectiveModel Askai.pyOr
      rw [hv]
      simp only [Askai.optToJ]
      rw [htruthy]
      simp [Askai.pyTruthy]
  · intro h hfalse
    rcases h with rfl | rfl <;>
    · unfold Askai.Main.effectiveModel Askai.pyOr
      rw [hfalse]
      simp [Askai.pyTruthy, Askai.ClaudeProvider.get_default_model]

/-- Witness for C4 amended: a non-empty explicit flag wins over an empty
configuration. -/
theorem witness_C4 :
    Askai.Main.effectiveModel (Askai.JVal.str "opus") [] "claude" =
      Askai.JVal.str "opus" :=
  (claim_C4 (Askai.JVal.str "opus") []).1 "opus" rfl (by decide)

/-- Witness for C10 at the prompt "hello". -/
theorem witness_C10 :
    ∃ cmd,
      Askai.ClaudeProvider.build_command "hello" none = Except.ok cmd ∧
      Askai.ClaudeProvider.build_command "hello" (some "haiku") =
        Except.ok cmd :=
  claim_C10 "hello"

/-- C9: the configured max_response_words never influences the built command:
any two configurations agreeing on every key other than max_response_words
yield identical results on the command-building path, whose conciseness
instruction is the fixed literal baked into build_command. -/
theorem claim_C9 (cfg1 cfg2 : List (String × Askai.JVal))
    (argsModel : Askai.JVal) (prompt : String)
    (h : ∀ k, k ≠ "max_response_words" →
      Askai.alookup cfg1 k = Askai.alookup cfg2 k) :
    Askai.Main.mainBuild cfg1 argsModel prompt =
      Askai.Main.mainBuild cfg2 argsModel prompt := by
  have hdm : Askai.alookup cfg1 "default_models" =
      Askai.alookup cfg2 "default_models" := h _ (by decide)
  have hget : Askai.ConfigManager.get_default_model cfg1 "claude" =
      Askai.ConfigManager.get_default_model cfg2 "claude" := by
    unfold Askai.ConfigManager.get_default_model Askai.ConfigManager.config_get
    simp only [Askai.ConfigManager.configGetAux]
    rw [hdm]
  unfold Askai.Main.mainBuild Askai.Main.effectiveModel
  rw [hget]

/-- Witness for C9: the default configuration and the same configuration with
max_response_words changed to 50 build the same command. -/
theorem witness_C9 :
    Askai.Main.mainBuild Askai.ConfigManager.DEFAULT_CONFIG Askai.JVal.nullv
        "hi" =
      Askai.Main.mainBuild
        [("default_provider", Askai.JVal.str "claude"),
         ("default_models", Askai.JVal.obj
            [("claude", Askai.JVal.str "haiku"),
             ("gemini", Askai.JVal.str "gemini-flash")]),
         ("max_response_words", Askai.JVal.num 50)]
        Askai.JVal.nullv "hi" := by
  refine claim_C9 _ _ _ _ ?_
  intro k hk
  unfold Askai.ConfigManager.DEFAULT_CONFIG
  simp only [Askai.alookup]
  split_ifs <;> rfl

/-- Helper: a key absent from the key list looks up to none. -/
theorem alookup_not_mem_none {α : Type} (u : List (String × α)) (k : String)
    (h : k ∉ u.map Prod.fst) : Askai.alookup u k = none := by
  induction u with
  | nil => rfl
  | cons a t ih =>
    obtain ⟨ak, av⟩ := a
    simp only [List.map_cons, List.mem_cons, not_or] at h
    simp [Askai.alookup, h.1, ih h.2]

/-- Helper: lookup after a Python dict assignment. -/
theorem alookup_dictInsert (d : List (String × Askai.JVal)) (k : String)
    (v : Askai.JVal) (k' : String) :
    Askai.alookup (Askai.ConfigManager.dictInsert d k v) k' =
      if k' = k then some v else Askai.alookup d k' := by
  induction d with
  | nil => simp [Askai.ConfigManager.dictInsert, Askai.alookup]
  | cons a t ih =>
    obtain ⟨ak, av⟩ := a
    by_cases hak : ak = k
    · subst hak
      by_cases hk' : k' = ak <;>
        simp [Askai.ConfigManager.dictInsert, Askai.alookup, hk']
    · by_cases hk' : k' = ak <;> by_cases hkk : k' = k <;>
        simp_all [Askai.ConfigManager.dictInsert, Askai.alookup]

/-- Helper: a dict union leaves keys absent from the right operand
unchanged. -/
theorem dictUnion_lookup_none (u : List (String × Askai.JVal)) (k : String) :
    ∀ d, Askai.alookup u k = none →
      Askai.alookup (Askai.ConfigManager.dictUnion d u) k =
        Askai.alookup d k := by
  induction u with
  | nil => intro d _; rfl
  | cons a t ih =>
    intro d h
    obtain ⟨ak, av⟩ := a
    have hne : k ≠ ak := by
      intro he
      simp [Askai.alookup, he] at h
    have ht : Askai.alookup t k = none := by
      simpa [Askai.alookup, hne] using h
    rw [show Askai.ConfigManager.dictUnion d ((ak, av) :: t) =
      Askai.ConfigManager.dictUnion
        (Askai.ConfigManager.dictInsert d ak av) t from rfl]
    rw [ih _ ht, alookup_dictInsert]
    simp [hne]

/-- Helper: a dict union takes the right operand's value at the right
operand's keys (right operand keys distinct). -/
theorem dictUnion_lookup_some (u : List (String × Askai.JVal)) (k : String)
    (v : Askai.JVal) :
    ∀ d, (u.map Prod.fst).Nodup → Askai.alookup u k = some v →
      Askai.alookup (Askai.ConfigManager.dictUnion d u) k = some v := by
  induction u with
  | nil => intro d _ h; cases h
  | cons a t ih =>
    intro d hnd h
    obtain ⟨ak, av⟩ := a
    simp only [List.map_cons, List.nodup_cons] at hnd
    rw [show Askai.ConfigManager.dictUnion d ((ak, av) :: t) =
      Askai.ConfigManager.dictUnion
        (Askai.ConfigManager.dictInsert d ak av) t from rfl]
    by_cases hk : k = ak
    · subst hk
      have hv : av = v := by simpa [Askai.alookup] using h
      subst hv
      have htn : Askai.alookup t k = none :=
        alookup_not_mem_none t k hnd.1
      rw [dictUnion_lookup_none t k _ htn, alookup_dictInsert]
      simp
    · have ht : Askai.alookup t k = some v := by
        simpa [Askai.alookup, hk] using h
      exact ih _ hnd.2 ht

/-- Helper: lookup at the inserted key after one merge step. -/
theorem mergeStep_lookup_self (acc : List (String × Askai.JVal)) (k : String)
    (w : Askai.JVal) :
    Askai.alookup (Askai.ConfigManager.mergeStep acc (k, w)) k =
      some (match Askai.alookup acc k, w with
            | some (Askai.JVal.obj dflt), Askai.JVal.obj u =>
                Askai.JVal.obj (Askai.ConfigManager.dictUnion dflt u)
            | _, _ => w) := by
  unfold Askai.ConfigManager.mergeStep
  rcases hacc : Askai.alookup acc k with _ | v
  · rcases w with s' | n' | b' | _ | fields' <;>
      (simp only [hacc]; rw [alookup_dictInsert]; simp)
  · rcases v with s | n | b | _ | fields <;>
      rcases w with s' | n' | b' | _ | fields' <;>
      (simp only [hacc]; rw [alookup_dictInsert]; simp)

/-- Helper: lookup at an untouched key after one merge step. -/
theorem mergeStep_lookup_other (acc : List (String × Askai.JVal))
    (kv : String × Askai.JVal) (k : String) (hne : k ≠ kv.1) :
    Askai.alookup (Askai.ConfigManager.mergeStep acc kv) k =
      Askai.alookup acc k := by
  unfold Askai.ConfigManager.mergeStep
  split <;> (rw [alookup_dictInsert]; simp [hne])

/-- Helper: the merge fold leaves keys absent from the loaded file at their
accumulator values. -/
theorem mergeFold_lookup_none (loaded : List (String × Askai.JVal))
    (k : String) :
    ∀ acc, Askai.alookup loaded k = none →
      Askai.alookup (loaded.foldl Askai.ConfigManager.mergeStep acc) k =
        Askai.alookup acc k := by
  induction loaded with
  | nil => intro acc _; rfl
  | cons a t ih =>
    intro acc h
    obtain ⟨ak, av⟩ := a
    have hne : k ≠ ak := by
      intro he
      simp [Askai.alookup, he] at h
    have ht : Askai.alookup t k = none := by
      simpa [Askai.alookup, hne] using h
    rw [List.foldl_cons, ih _ ht, mergeStep_lookup_other _ _ _ hne]

/-- Helper: the merge fold at a key the loaded file sets (loaded keys
distinct): the loaded value, deep-merged with the accumulator value when both
are dicts. -/
theorem mergeFold_lookup_some (loaded : List (String × Askai.JVal))
    (k : String) (v : Askai.JVal) :
    ∀ acc, (loaded.map Prod.fst).Nodup → Askai.alookup loaded k = some v →
      Askai.alookup (loaded.foldl Askai.ConfigManager.mergeStep acc) k =
        some (match Askai.alookup acc k, v with
              | some (Askai.JVal.obj dflt), Askai.JVal.obj u =>
                  Askai.JVal.obj (Askai.ConfigManager.dictUnion dflt u)
              | _, _ => v) := by
  induction loaded with
  | nil => intro acc _ h; cases h
  | cons a t ih =>
    intro acc hnd h
    obtain ⟨ak, av⟩ := a
    simp only [List.map_cons, List.nodup_cons] at hnd
    by_cases hk : k = ak
    · subst hk
      have hv : av = v := by simpa [Askai.alookup] using h
      subst hv
      have htn : Askai.alookup t k = none :=
        alookup_not_mem_none t k hnd.1
      rw [List.foldl_cons, mergeFold_lookup_none t k _ htn,
        mergeStep_lookup_self]
    · have ht : Askai.alookup t k = some v := by
        simpa [Askai.alookup, hk] using h
      rw [List.foldl_cons, ih _ hnd.2 ht, mergeStep_lookup_other _ _ _ hk]

/-- C5: merging a loaded configuration with the compiled-in defaults (loaded
top-level keys distinct, as produced by json.load) preserves every user-set
key: keys absent from the file are filled from the defaults, top-level keys
unknown to the defaults are kept, and a nested mapping is merged key-by-key
so that a user-set nested key (present in the defaults' mapping or not) is
never dropped. -/
theorem claim_C5 (loaded : List (String × Askai.JVal))
    (hnd : (loaded.map Prod.fst).Nodup) :
    (∀ k, Askai.alookup loaded k = none →
      Askai.alookup (Askai.ConfigManager.mergeWithDefaults loaded) k =
        Askai.alookup Askai.ConfigManager.DEFAULT_CONFIG k) ∧
    (∀ k v, Askai.alookup loaded k = some v →
      Askai.alookup Askai.ConfigManager.DEFAULT_CONFIG k = none →
      Askai.alookup (Askai.ConfigManager.mergeWithDefaults loaded) k =
        some v) ∧
    (∀ k u k2 v2, Askai.alookup loaded k = some (Askai.JVal.obj u) →
      (u.map Prod.fst).Nodup → Askai.alookup u k2 = some v2 →
      ∃ m, Askai.alookup (Askai.ConfigManager.mergeWithDefaults loaded) k =
        some (Askai.JVal.obj m) ∧ Askai.alookup m k2 = some v2) := by
  refine ⟨?_, ?_, ?_⟩
  · intro k h
    exact mergeFold_lookup_none loaded k _ h
  · intro k v h hd
    unfold Askai.ConfigManager.mergeWithDefaults
    rw [mergeFold_lookup_some loaded k v _ hnd h, hd]
  · intro k u k2 v2 h hu hk2
    unfold Askai.ConfigManager.mergeWithDefaults
    rw [mergeFold_lookup_some loaded k (Askai.JVal.obj u) _ hnd h]
    rcases hd : Askai.alookup Askai.ConfigManager.DEFAULT_CONFIG k with _ | w
    · exact ⟨u, rfl, hk2⟩
    · rcases w with s | n | b | _ | dflt
      · exact ⟨u, rfl, hk2⟩
      · exact ⟨u, rfl, hk2⟩
      · exact ⟨u, rfl, hk2⟩
      · exact ⟨u, rfl, hk2⟩
      · exact ⟨Askai.ConfigManager.dictUnion dflt u, rfl,
          dictUnion_lookup_some u k2 v2 dflt hu hk2⟩

/-- Witness for C5: a loaded file with a third provider's default model and
an unknown top-level key keeps both and is filled with the default provider
key. -/
theorem witness_C5 :
    (Askai.alookup
        (Askai.ConfigManager.mergeWithDefaults
          [("default_models", Askai.JVal.obj
              [("openai", Askai.JVal.str "gpt-5")]),
           ("custom_flag", Askai.JVal.boolv true)]) "default_provider" =
      Askai.alookup Askai.ConfigManager.DEFAULT_CONFIG "default_provider") ∧
    (Askai.alookup
        (Askai.ConfigManager.mergeWithDefaults
          [("default_models", Askai.JVal.obj
              [("openai", Askai.JVal.str "gpt-5")]),
           ("custom_flag", Askai.JVal.boolv true)]) "custom_flag" =
      some (Askai.JVal.boolv true)) ∧
    (∃ m, Askai.alookup
        (Askai.ConfigManager.mergeWithDefaults
          [("default_models", Askai.JVal.obj
              [("openai", Askai.JVal.str "gpt-5")]),
           ("custom_flag", Askai.JVal.boolv true)]) "default_models" =
        some (Askai.JVal.obj m) ∧
      Askai.alookup m "openai" = some (Askai.JVal.str "gpt-5")) := by
  have h := claim_C5
    [("default_models", Askai.JVal.obj [("openai", Askai.JVal.str "gpt-5")]),
     ("custom_flag", Askai.JVal.boolv true)] (by decide)
  exact ⟨h.1 "default_provider" rfl,
    h.2.1 "custom_flag" (Askai.JVal.boolv true) rfl rfl,
    h.2.2 "default_models" _ "openai" _ rfl (by decide) rfl⟩

example : Askai.ClaudeProvider.resolveModel (some "haiku") =
    Except.ok "claude-haiku-4-5-20251001" := rfl
example : Askai.ClaudeProvider.resolveModel (some "HAIKU") =
    Except.ok "claude-haiku-4-5-20251001" := rfl
example : Askai.ClaudeProvider.resolveModel none =
    Except.ok "claude-haiku-4-5-20251001" := rfl
example : Askai.ClaudeProvider.resolveModel (some "gpt") =
    Except.error "Unknown model 'gpt'. Available: haiku, sonnet, opus" := rfl
example : Askai.ClaudeProvider.validate_model "HAIKU" = false := by decide
